import Mathlib

/-!
# Verification of `create_visualizations.py`

A shallow embedding of the data-reshaping pipeline of the visualization
script: the weather heatmap (groupby + pivot), the weather scatter
(numeric coercion, percentile, marker-size interpolation, legend
reference values), the global-anomaly heatmap (melt + pivot round
trip), the Minnesota line chart (date synthesis), and the orchestrator
(`main`, output paths, directory creation).

Numbers are modelled as `Rat` (exact arithmetic standing for the
floating-point values of the program); tables are lists of records;
a raw CSV cell is either a numeric value, a non-numeric token, or a
missing entry.
-/

/-- A raw cell of a loaded CSV table: a numeric value, a non-numeric
string token (e.g. the sentinel `"***"` or a trace marker `"T"`), or a
missing entry (`NaN` after `read_csv`). -/
inductive Cell where
  | numeric (v : Rat)
  | token (s : String)
  | missing
  deriving DecidableEq

/-- `pd.to_numeric(x, errors="coerce")` on one cell: numeric values pass
through, every non-numeric token and every missing entry becomes
missing (`NaN`); the coercion never raises. -/
def to_numeric_coerce (c : Cell) : Option Rat :=
  match c with
  | .numeric v => some v
  | .token _ => none
  | .missing => none

/-- `.fillna(0.0)` on one already-coerced cell. -/
def fillna0 (o : Option Rat) : Rat := o.getD 0

/-- Arithmetic mean of a list of rationals (`Series.mean`). -/
def listMean (l : List Rat) : Rat := l.sum / (l.length : Rat)

/-- `os.path.join` for a relative second component. -/
def joinPath (a b : String) : String := a ++ "/" ++ b

/-! ## Weather heatmap (`plot_weather_heatmap`) -/

/-- One row of `weather_data.csv` as used by the two weather renderers:
columns `city`, `month`, `avg_temp`, `avg_humidity` and the raw
`precip` cell. -/
structure WeatherRecord where
  city : String
  month : Nat
  avg_temp : Rat
  avg_humidity : Rat
  precip : Cell
  deriving DecidableEq

/-- The distinct `(city, month)` keys of the groupby
`df.groupby(["city", "month"])`.  (pandas additionally sorts the keys;
the pivoted matrix below is index-order independent, so the keys are
kept in first-seen order.) -/
def weatherGroupKeys (df : List WeatherRecord) : List (String × Nat) :=
  (df.map (fun r => (r.city, r.month))).dedup

/-- The `avg_temp` values of the group of a given `(city, month)` key:
exactly the rows of `df` carrying that key. -/
def groupTemps (df : List WeatherRecord) (k : String × Nat) : List Rat :=
  (df.filter (fun r => decide (r.city = k.1 ∧ r.month = k.2))).map (fun r => r.avg_temp)

/-- `df.groupby(["city","month"])["avg_temp"].mean().reset_index()`:
one row per distinct `(city, month)` key, holding the mean `avg_temp`
of that group. -/
def monthly_avg (df : List WeatherRecord) : List ((String × Nat) × Rat) :=
  (weatherGroupKeys df).map (fun k => (k, listMean (groupTemps df k)))

/-- A pivoted matrix: row labels, column labels, and the cell contents
(`none` = blank cell). -/
structure PivotTable (ρ κ : Type) where
  rows : List ρ
  cols : List κ
  cell : ρ → κ → Option Rat

/-- `monthly_avg.pivot(index="city", columns="month", values="avg_temp")`
followed by `sort_index(axis=1)`: fails (`none`) on duplicate
`(city, month)` keys, otherwise produces the city × month matrix with
distinct sorted row and column labels and cells looked up by key. -/
def pivotCityMonth (g : List ((String × Nat) × Rat)) :
    Option (PivotTable String Nat) :=
  if (g.map (fun e => e.1)).Nodup then
    some
      { rows := List.insertionSort (· ≤ ·) ((g.map (fun e => e.1.1)).dedup)
        cols := List.insertionSort (· ≤ ·) ((g.map (fun e => e.1.2)).dedup)
        cell := fun c m => (g.find? (fun e => decide (e.1 = (c, m)))).map (fun e => e.2) }
  else none

/-- `plot_weather_heatmap df outdir`: the rendered matrix together with
the returned file path. -/
def plot_weather_heatmap (df : List WeatherRecord) (outdir : String) :
    Option (PivotTable String Nat) × String :=
  (pivotCityMonth (monthly_avg df), joinPath outdir "weather_heatmap.png")

/-! ## Weather scatter (`plot_weather_scatter`) -/

/-- The coerced precipitation column:
`pd.to_numeric(df_plot["precip"], errors="coerce").fillna(0.0)`. -/
def coercedPrecips (df : List WeatherRecord) : List Rat :=
  df.map (fun r => fillna0 (to_numeric_coerce r.precip))

/-- `Series.quantile(0.95)` with the default linear interpolation:
sort the values, take position `h = 0.95 * (n - 1)` and linearly
interpolate between the neighbouring order statistics. -/
def quantile95 (l : List Rat) : Rat :=
  let s := List.insertionSort (· ≤ ·) l
  let n := s.length
  let h : Rat := (19 * (n - 1 : Nat) : Rat) / 20
  let i : Nat := (19 * (n - 1)) / 20
  let lo := s.getD i 0
  let hi := s.getD (i + 1) lo
  lo + (h - (i : Rat)) * (hi - lo)

/-- `max_precip`: the 95th percentile of the coerced precipitation
column when the column has any non-missing entry, else `1.0`.  (After
`fillna(0.0)` every entry is non-missing, so the guard
`notna().any()` is exactly non-emptiness of the table.) -/
def maxPrecip (df : List WeatherRecord) : Rat :=
  if df = [] then 1 else quantile95 (coercedPrecips df)

/-- The smallest entry of a column (the empty default is irrelevant:
no point is drawn from an empty table). -/
def listMinD : List Rat → Rat
  | [] => 0
  | x :: xs => xs.foldl min x

/-- The largest entry of a column (empty default irrelevant). -/
def listMaxD : List Rat → Rat
  | [] => 1
  | x :: xs => xs.foldl max x

/-- The autoscaled lower bound of the coerced precipitation column. -/
def colMin (df : List WeatherRecord) : Rat := listMinD (coercedPrecips df)

/-- The autoscaled upper bound of the coerced precipitation column. -/
def colMax (df : List WeatherRecord) : Rat := listMaxD (coercedPrecips df)

/-- The marker-size mapping the `sns.scatterplot` call actually
applies: with `size="precip", sizes=(20, 300)` seaborn normalizes the
size column linearly from the column's own range `[dmin, dmax]` onto
`[20, 300]` (matplotlib `Normalize`, which sends a constant column to
`0`, i.e. the minimum size).  `max_precip` is never passed to the
plot; it only feeds the legend reference values below. -/
def seabornSizeNorm (dmin dmax v : Rat) : Rat :=
  if dmax = dmin then 20
  else 20 + (v - dmin) / (dmax - dmin) * (300 - 20)

/-- The size assigned to one coerced precipitation value in
`plot_weather_scatter`. -/
def scatterPointSize (df : List WeatherRecord) (v : Rat) : Rat :=
  seabornSizeNorm (colMin df) (colMax df) v

/-- `np.linspace(0, m, 4)`: the four evenly spaced sample points. -/
def linspace4 (m : Rat) : List Rat := [0, m / 3, 2 * m / 3, m]

/-- Round-half-to-even on an exact rational (the rounding `np.round`
uses). -/
def roundHalfEven (x : Rat) : Int :=
  let f := ⌊x⌋
  let r := x - (f : Rat)
  if r < 1 / 2 then f
  else if 1 / 2 < r then f + 1
  else if f % 2 = 0 then f else f + 1

/-- `np.round(x, 2)`. -/
def round2 (x : Rat) : Rat := (roundHalfEven (100 * x) : Rat) / 100

/-- `ref_values = np.unique(np.round(np.linspace(0, max_precip, 4), 2))`:
round the four evenly spaced sample points to two decimals, then sort
and remove duplicates (`np.unique` sorts). -/
def refValues (df : List WeatherRecord) : List Rat :=
  List.insertionSort (· ≤ ·) (((linspace4 (maxPrecip df)).map round2).dedup)

/-- The observable outputs of `plot_weather_scatter`: the coerced
precipitation column, the marker sizes seaborn assigns to it, the p95
cutoff, the legend reference values and the returned file path. -/
structure ScatterOut where
  precips : List Rat
  sizes : List Rat
  cutoff : Rat
  refs : List Rat
  fname : String

/-- `plot_weather_scatter df outdir`. -/
def plot_weather_scatter (df : List WeatherRecord) (outdir : String) : ScatterOut :=
  { precips := coercedPrecips df
    sizes := (coercedPrecips df).map (scatterPointSize df)
    cutoff := maxPrecip df
    refs := refValues df
    fname := joinPath outdir "weather_scatter.png" }

/-! ## Global-anomaly heatmap (`plot_global_temp_heatmap`) and its
preprocessing in `main` -/

/-- One raw row of `global_temp.csv`: the `Year` column followed by the
twelve month cells `Jan` .. `Dec` (extra trailing columns of the file
play no role in the heatmap). -/
structure GRowRaw where
  Year : Int
  cells : Fin 12 → Cell

/-- One preprocessed row: the twelve month cells after the sentinel
replacement and numeric coercion of `main` (`none` = missing). -/
structure GlobalRow where
  Year : Int
  cells : Fin 12 → Option Rat

/-- `global_df.replace("***", pd.NA)` on one cell. -/
def replaceSentinel (c : Cell) : Cell :=
  if c = .token "***" then .missing else c

/-- The preprocessing of the global table in `main`: replace the
sentinel, then `pd.to_numeric(col, errors="coerce")` on every month
column. -/
def globalPreprocess (t : List GRowRaw) : List GlobalRow :=
  t.map (fun r => { Year := r.Year, cells := fun j => to_numeric_coerce (replaceSentinel (r.cells j)) })

/-- The uniform rule the preprocessing is claimed to implement: a
numeric cell survives, anything else is missing. -/
def coerceSpec (c : Cell) : Option Rat :=
  match c with
  | .numeric v => some v
  | _ => none

/-- The fixed month-column names, in calendar order. -/
def monthNamesV : Fin 12 → String :=
  !["Jan", "Feb", "Mar", "Apr", "May", "Jun", "Jul", "Aug", "Sep", "Oct", "Nov", "Dec"]

/-- The `month_order` mapping of the source: month name to calendar
number. -/
def month_order (s : String) : Option Nat :=
  (([("Jan", 1), ("Feb", 2), ("Mar", 3), ("Apr", 4), ("May", 5), ("Jun", 6),
     ("Jul", 7), ("Aug", 8), ("Sep", 9), ("Oct", 10), ("Nov", 11), ("Dec", 12)] :
    List (String × Nat)).find? (fun e => decide (e.1 = s))).map (fun e => e.2)

/-- One row of the melted long table, after the `MonthNum` column has
been added: year, month name, month number, anomaly value. -/
structure LongRow where
  year : Int
  monthName : String
  monthNum : Option Nat
  anomaly : Option Rat
  deriving DecidableEq

/-- One melted long row: the year, the month-column name, its mapped
`MonthNum`, and the anomaly value of that cell. -/
def meltRow (j : Fin 12) (r : GlobalRow) : LongRow :=
  { year := r.Year
    monthName := monthNamesV j
    monthNum := month_order (monthNamesV j)
    anomaly := r.cells j }

/-- `df.melt(id_vars="Year", value_vars=months, ...)` followed by
`df_long["MonthNum"] = df_long["Month"].map(month_order)`: one long row
per (month column, original row) pair, stacked column by column. -/
def meltGlobal (df : List GlobalRow) : List LongRow :=
  (List.finRange 12).flatMap (fun j => df.map (meltRow j))

/-- `df_long.pivot(index="Year", columns="MonthNum", values="Anomaly")`
followed by `sort_index()`: fails (`none`) on duplicate
`(Year, MonthNum)` keys, otherwise produces the Year × month matrix
with the year index sorted ascending. -/
def pivotYearMonth (l : List LongRow) : Option (PivotTable Int Nat) :=
  if (l.map (fun e => (e.year, e.monthNum))).Nodup then
    some
      { rows := List.insertionSort (· ≤ ·) ((l.map (fun e => e.year)).dedup)
        cols := List.insertionSort (· ≤ ·) (((l.map (fun e => e.monthNum)).reduceOption).dedup)
        cell := fun y n =>
          (l.find? (fun e => decide (e.year = y ∧ e.monthNum = some n))).bind (fun e => e.anomaly) }
  else none

/-- `plot_global_temp_heatmap df outdir`: the rendered matrix together
with the returned file path. -/
def plot_global_temp_heatmap (df : List GlobalRow) (outdir : String) :
    Option (PivotTable Int Nat) × String :=
  (pivotYearMonth (meltGlobal df), joinPath outdir "global_temp_heatmap.png")

/-! ## Minnesota precipitation line chart (`plot_minnesota_precip_line`) -/

/-- A calendar date, ordered chronologically (lexicographically). -/
structure Date where
  year : Int
  month : Nat
  day : Nat
  deriving DecidableEq

/-- Gregorian leap-year rule. -/
def isLeap (y : Int) : Bool := (y % 4 == 0 && y % 100 != 0) || y % 400 == 0

/-- Number of days of month `m` of year `y` (0 for an invalid month
number). -/
def daysInMonth (y : Int) (m : Nat) : Nat :=
  match m with
  | 1 => 31 | 2 => if isLeap y then 29 else 28 | 3 => 31 | 4 => 30
  | 5 => 31 | 6 => 30 | 7 => 31 | 8 => 31
  | 9 => 30 | 10 => 31 | 11 => 30 | 12 => 31
  | _ => 0

/-- Validity of a date: a real day of a real calendar month. -/
def validDate (d : Date) : Bool :=
  decide (1 ≤ d.month) && decide (d.month ≤ 12) &&
    decide (1 ≤ d.day) && decide (d.day ≤ daysInMonth d.year d.month)

/-- Chronological order on dates. -/
def dateLe (a b : Date) : Bool :=
  decide (a.year < b.year) ||
    (decide (a.year = b.year) &&
      (decide (a.month < b.month) ||
        (decide (a.month = b.month) && decide (a.day ≤ b.day))))

/-- `pd.to_datetime(dict(year=y, month=m, day=d))` on one row:
the timestamp of the given calendar day, failing on an invalid
combination. -/
def to_datetime (y : Int) (m d : Nat) : Option Date :=
  if validDate ⟨y, m, d⟩ then some ⟨y, m, d⟩ else none

/-- One row of `minnesota_weather.csv` as used by the line chart. -/
structure MRecord where
  site : String
  year : Int
  mo : Nat
  precip : Rat
  deriving DecidableEq

/-- The date synthesized for one Minnesota record:
`pd.to_datetime(dict(year=df["year"], month=df["mo"], day=1))`. -/
def minnSynthDate (r : MRecord) : Option Date := to_datetime r.year r.mo 1

/-- `plot_minnesota_precip_line df outdir`: the synthesized date column
together with the returned file path. -/
def plot_minnesota_precip_line (df : List MRecord) (outdir : String) :
    List (Option Date) × String :=
  (df.map minnSynthDate, joinPath outdir "minnesota_precip_line.png")

/-- The specification-side notion "first calendar day of month `m` in
year `y`": a valid date of that month that is chronologically ≤ every
valid date of that month. -/
def isFirstCalendarDay (y : Int) (m : Nat) (d : Date) : Prop :=
  validDate d = true ∧ d.year = y ∧ d.month = m ∧
    ∀ d' : Date, validDate d' = true → d'.year = y → d'.month = m → dateLe d d' = true

/-! ## Orchestrator (`main`, `ensure_output_dir`) -/

/-- `os.makedirs(path, exist_ok=True)` over an abstract set of existing
directories: creates the directory when absent, succeeds unchanged when
present. -/
def ensure_output_dir (fs : List String) (p : String) : List String :=
  if p ∈ fs then fs else p :: fs

namespace Script

/-- `main`, parametrized by the repository base directory, the existing
directories and the three loaded tables: runs the four renderers in
order and returns the list of figure paths together with the directory
state. -/
def main (base : String) (fs : List String) (weather_df : List WeatherRecord)
    (global_raw : List GRowRaw) (minn_df : List MRecord) :
    List String × List String :=
  let out_dir := joinPath base "output"
  let fs1 := ensure_output_dir fs out_dir
  let global_df := globalPreprocess global_raw
  let figures :=
    [(plot_weather_heatmap weather_df out_dir).2,
     (plot_weather_scatter weather_df out_dir).fname,
     (plot_global_temp_heatmap global_df out_dir).2,
     (plot_minnesota_precip_line minn_df out_dir).2]
  (figures, fs1)

end Script

/-! ## Frame-mutation model

DataFrame objects live on a heap of frames addressed by index; a
renderer is a state transformer.  `df.copy()` allocates a fresh frame;
a column assignment mutates one frame in place.  The two heatmap
renderers perform no column assignment at all, so their frame effect is
the identity. -/

/-- A heap of weather frames. -/
abbrev WState : Type := List (List WeatherRecord)

/-- `df.copy()`: append a copy of frame `i`, returning the new state
and the index of the copy. -/
def copyFrame (s : WState) (i : Nat) : WState × Nat :=
  (s ++ [s.getD i []], s.length)

/-- The in-place column assignment
`df_plot["precip"] = pd.to_numeric(df_plot["precip"], errors="coerce").fillna(0.0)`
applied to frame `j`. -/
def setPrecipCol (s : WState) (j : Nat) : WState :=
  s.set j ((s.getD j []).map
    (fun r => { r with precip := .numeric (fillna0 (to_numeric_coerce r.precip)) }))

/-- The frame effect of `plot_weather_scatter` on input frame `i`:
copy, then coerce the precipitation column of the copy. -/
def plot_weather_scatter_state (s : WState) (i : Nat) : WState :=
  let c := copyFrame s i
  setPrecipCol c.1 c.2

/-- The frame effect of `plot_weather_heatmap`: `groupby`, `mean`,
`reset_index`, `pivot` and `sort_index` all return new objects, so no
frame is mutated. -/
def plot_weather_heatmap_state (s : WState) (i : Nat) : WState := s

/-- The coerced precipitation column `plot_weather_scatter` computes
when run against frame `i` of state `s`. -/
def scatterPrecipsOf (s : WState) (i : Nat) : List Rat :=
  coercedPrecips (s.getD i [])

/-- A heap of Minnesota frames; a record optionally carries the
synthesized `date` column. -/
structure MRecordD where
  site : String
  year : Int
  mo : Nat
  precip : Rat
  date : Option Date
  deriving DecidableEq

/-- A heap of Minnesota frames. -/
abbrev MState : Type := List (List MRecordD)

/-- `df.copy()` on the Minnesota heap. -/
def copyFrameM (s : MState) (i : Nat) : MState × Nat :=
  (s ++ [s.getD i []], s.length)

/-- The in-place column assignment
`df_plot["date"] = pd.to_datetime(dict(year=..., month=..., day=1))`
applied to frame `j`. -/
def setDateCol (s : MState) (j : Nat) : MState :=
  s.set j ((s.getD j []).map
    (fun r => { r with date := to_datetime r.year r.mo 1 }))

/-- The frame effect of `plot_minnesota_precip_line` on input frame
`i`: copy, then add the date column to the copy. -/
def plot_minnesota_precip_line_state (s : MState) (i : Nat) : MState :=
  let c := copyFrameM s i
  setDateCol c.1 c.2

/-- A heap of global-anomaly frames. -/
abbrev GState : Type := List (List GlobalRow)

/-- The frame effect of `plot_global_temp_heatmap`: `melt`, the column
`map`, `pivot` and `sort_index` all return new objects, so no existing
frame is mutated (the added `MonthNum` column lands on the fresh melted
frame, not on the input). -/
def plot_global_temp_heatmap_state (s : GState) (i : Nat) : GState := s

/-! ## Helper lemmas -/

/-- Coercion after the sentinel replacement is the uniform rule: a
numeric cell survives, the sentinel, any other token and a missing
entry all become missing. -/
lemma to_numeric_coerce_replaceSentinel (c : Cell) :
    to_numeric_coerce (replaceSentinel c) = coerceSpec c := by
  cases c with
  | numeric v => rfl
  | token s =>
      by_cases h : Cell.token s = Cell.token "***" <;>
        simp [replaceSentinel, to_numeric_coerce, coerceSpec, h]
  | missing => rfl

/-- Looking a key up in an association list built over a list of keys
returns the tabulated value exactly when the key occurs. -/
lemma find?_map_key {κ : Type} [DecidableEq κ] (f : κ → Rat) (k0 : κ) :
    ∀ ks : List κ,
      (ks.map (fun k => (k, f k))).find? (fun e => decide (e.1 = k0)) =
        if k0 ∈ ks then some (k0, f k0) else none
  | [] => by simp
  | k :: ks => by
      by_cases h : k = k0
      · subst h
        rw [List.map_cons, List.find?_cons_of_pos _ (by simp),
          if_pos (List.mem_cons_self k ks)]
      · have hne : ¬ k0 = k := fun hh => h hh.symm
        rw [List.map_cons, List.find?_cons_of_neg _ (by simp [h]),
          find?_map_key f k0 ks]
        by_cases hm : k0 ∈ ks <;> simp [hm, hne]

/-- `find?` returns the unique element satisfying the predicate. -/
lemma find?_eq_some_of_unique {α : Type} (p : α → Bool) (x : α) :
    ∀ l : List α, x ∈ l → p x = true → (∀ y ∈ l, p y = true → y = x) →
      l.find? p = some x
  | [], hx, _, _ => by cases hx
  | a :: l, hx, hpx, huniq => by
      by_cases hpa : p a = true
      · have hax : a = x := huniq a (List.mem_cons_self a l) hpa
        rw [List.find?_cons_of_pos _ hpa, hax]
      · have hxl : x ∈ l := by
          rcases List.mem_cons.1 hx with h | h
          · exact absurd (h ▸ hpx) hpa
          · exact h
        have hrec : l.find? p = some x :=
          find?_eq_some_of_unique p x l hxl hpx
            (fun y hy hpy => huniq y (List.mem_cons_of_mem a hy) hpy)
        rw [List.find?_cons_of_neg _ hpa, hrec]

/-- The group keys of the weather groupby are duplicate-free. -/
lemma monthly_avg_keys_nodup (df : List WeatherRecord) :
    ((monthly_avg df).map (fun e => e.1)).Nodup := by
  have h : (monthly_avg df).map (fun e => e.1) = weatherGroupKeys df := by
    unfold monthly_avg
    rw [List.map_map]
    exact List.map_id _
  rw [h]
  exact List.nodup_dedup _

/-- A `(city, month)` key occurs in the groupby exactly when some row
of the table carries it. -/
lemma mem_weatherGroupKeys (df : List WeatherRecord) (c : String) (m : Nat) :
    (c, m) ∈ weatherGroupKeys df ↔ ¬ groupTemps df (c, m) = [] := by
  unfold weatherGroupKeys groupTemps
  rw [List.mem_dedup, List.mem_map]
  constructor
  · rintro ⟨r, hr, hrk⟩ hnil
    rw [List.map_eq_nil_iff, List.filter_eq_nil_iff] at hnil
    have h1 : r.city = c := congrArg Prod.fst hrk
    have h2 : r.month = m := congrArg Prod.snd hrk
    exact hnil r hr (by rw [decide_eq_true_eq]; exact ⟨h1, h2⟩)
  · intro hne
    by_contra hnotmem
    refine hne ?_
    rw [List.map_eq_nil_iff, List.filter_eq_nil_iff]
    intro r hr hp
    rw [decide_eq_true_eq] at hp
    exact hnotmem ⟨r, hr, by rw [hp.1, hp.2]⟩

/-! ## Claims -/

/-- **C5.** In `plot_weather_scatter`, every precipitation value that
does not parse as a number (non-numeric token or missing entry) is
replaced by exactly `0.0` before plotting, every numerically parseable
value is left unchanged, and no input row is dropped: the coerced
column has exactly one entry per input row, positionally. -/
theorem scatter_precip_coercion (df : List WeatherRecord) :
    (coercedPrecips df).length = df.length ∧
    ∀ i : Nat, (coercedPrecips df)[i]? =
      (df[i]?).map (fun r =>
        match r.precip with
        | .numeric v => v
        | _ => 0) := by
  constructor
  · simp [coercedPrecips]
  · intro i
    simp only [coercedPrecips, List.getElem?_map]
    cases df[i]? with
    | none => rfl
    | some r =>
        simp only [Option.map_some']
        congr 1
        cases r.precip <;> rfl

/-- **C7.** The preprocessing of the global anomaly table in `main`
never fails: it is a total function on cells, the table keeps its
shape, and every cell that is not numeric — the sentinel `"***"`, any
other non-numeric token, or an already-missing entry — becomes a
missing value, never an error and never `0`. -/
theorem global_coercion_never_fails (t : List GRowRaw) :
    (globalPreprocess t).length = t.length ∧
    ∀ (i : Nat) (j : Fin 12),
      ((globalPreprocess t)[i]?).map (fun row => row.cells j) =
        (t[i]?).map (fun row => coerceSpec (row.cells j)) := by
  constructor
  · simp [globalPreprocess]
  · intro i j
    simp only [globalPreprocess, List.getElem?_map]
    cases t[i]? with
    | none => rfl
    | some r => simp [to_numeric_coerce_replaceSentinel]

/-- **C8.** The pivot inside `plot_weather_heatmap` can never hit the
duplicate-key failure path: the preceding groupby produces
duplicate-free `(city, month)` keys for every input table, so the pivot
always succeeds. -/
theorem weather_pivot_duplicate_free (df : List WeatherRecord) :
    ((monthly_avg df).map (fun e => e.1)).Nodup ∧
    (pivotCityMonth (monthly_avg df)).isSome = true := by
  refine ⟨monthly_avg_keys_nodup df, ?_⟩
  simp [pivotCityMonth, monthly_avg_keys_nodup df]

/-- **C4.** `main` creates the output directory when it is absent,
succeeds unchanged when it already exists, and returns exactly the four
figure paths, in order, each joined onto the output directory. -/
theorem main_output_paths (base : String) (fs : List String)
    (wdf : List WeatherRecord) (gdf : List GRowRaw) (mdf : List MRecord) :
    (Script.main base fs wdf gdf mdf).1 =
      [joinPath (joinPath base "output") "weather_heatmap.png",
       joinPath (joinPath base "output") "weather_scatter.png",
       joinPath (joinPath base "output") "global_temp_heatmap.png",
       joinPath (joinPath base "output") "minnesota_precip_line.png"] ∧
    (Script.main base fs wdf gdf mdf).1.length = 4 ∧
    joinPath base "output" ∈ (Script.main base fs wdf gdf mdf).2 ∧
    (joinPath base "output" ∈ fs → (Script.main base fs wdf gdf mdf).2 = fs) := by
  refine ⟨rfl, rfl, ?_, ?_⟩
  · by_cases h : joinPath base "output" ∈ fs <;>
      simp [Script.main, ensure_output_dir, h]
  · intro h
    simp [Script.main, ensure_output_dir, h]

/-- Witness for C4: with the output directory already present, `main`
leaves the directory state unchanged and still returns the four paths. -/
theorem main_output_paths_witness :
    (Script.main "repo" ["repo/output"] [] [] []).2 = ["repo/output"] ∧
    (Script.main "repo" ["repo/output"] [] [] []).1.length = 4 := by
  have h := main_output_paths "repo" ["repo/output"] [] [] []
  exact ⟨h.2.2.2 (by simp [joinPath]), h.2.1⟩

/-- A city occurs among the first components of the groupby keys
exactly when some row of the table has it. -/
lemma mem_heatRows (df : List WeatherRecord) (c : String) :
    c ∈ (monthly_avg df).map (fun e => e.1.1) ↔ c ∈ df.map (fun r => r.city) := by
  constructor
  · intro h
    rcases List.mem_map.1 h with ⟨e, he, hec⟩
    rcases List.mem_map.1 he with ⟨k, hk, rfl⟩
    rcases List.mem_map.1 (List.mem_dedup.1 hk) with ⟨r, hr, rfl⟩
    exact List.mem_map.2 ⟨r, hr, hec⟩
  · intro h
    rcases List.mem_map.1 h with ⟨r, hr, rfl⟩
    refine List.mem_map.2 ⟨((r.city, r.month), listMean (groupTemps df (r.city, r.month))), ?_, rfl⟩
    exact List.mem_map.2
      ⟨(r.city, r.month), List.mem_dedup.2 (List.mem_map.2 ⟨r, hr, rfl⟩), rfl⟩

/-- A month occurs among the second components of the groupby keys
exactly when some row of the table has it. -/
lemma mem_heatCols (df : List WeatherRecord) (m : Nat) :
    m ∈ (monthly_avg df).map (fun e => e.1.2) ↔ m ∈ df.map (fun r => r.month) := by
  constructor
  · intro h
    rcases List.mem_map.1 h with ⟨e, he, hec⟩
    rcases List.mem_map.1 he with ⟨k, hk, rfl⟩
    rcases List.mem_map.1 (List.mem_dedup.1 hk) with ⟨r, hr, rfl⟩
    exact List.mem_map.2 ⟨r, hr, hec⟩
  · intro h
    rcases List.mem_map.1 h with ⟨r, hr, rfl⟩
    refine List.mem_map.2 ⟨((r.city, r.month), listMean (groupTemps df (r.city, r.month))), ?_, rfl⟩
    exact List.mem_map.2
      ⟨(r.city, r.month), List.mem_dedup.2 (List.mem_map.2 ⟨r, hr, rfl⟩), rfl⟩

/-- **C1.** For every weather table, `plot_weather_heatmap` produces a
matrix with exactly one row per distinct city and one column per
distinct month present in the data, columns sorted ascending, and the
entry at `(c, m)` is the arithmetic mean of the `avg_temp` values of
exactly the rows with that `(city, month)` pair — blank when no such
row exists. -/
theorem weather_heatmap_matrix_correct (df : List WeatherRecord) (od : String) :
    ∃ pt : PivotTable String Nat,
      (plot_weather_heatmap df od).1 = some pt ∧
      pt.rows.Nodup ∧
      (∀ c, c ∈ pt.rows ↔ c ∈ df.map (fun r => r.city)) ∧
      pt.cols.Nodup ∧
      pt.cols.Sorted (· ≤ ·) ∧
      (∀ m, m ∈ pt.cols ↔ m ∈ df.map (fun r => r.month)) ∧
      ∀ c m, pt.cell c m =
        if groupTemps df (c, m) = [] then none
        else some (listMean (groupTemps df (c, m))) := by
  have hnod := monthly_avg_keys_nodup df
  refine
    ⟨{ rows := List.insertionSort (· ≤ ·) (((monthly_avg df).map (fun e => e.1.1)).dedup)
       cols := List.insertionSort (· ≤ ·) (((monthly_avg df).map (fun e => e.1.2)).dedup)
       cell := fun c m =>
         ((monthly_avg df).find? (fun e => decide (e.1 = (c, m)))).map (fun e => e.2) },
     ?_, ?_, ?_, ?_, ?_, ?_, ?_⟩
  · simp only [plot_weather_heatmap, pivotCityMonth, if_pos hnod]
  · exact ((List.perm_insertionSort _ _).nodup_iff).2 (List.nodup_dedup _)
  · intro c
    rw [List.mem_insertionSort, List.mem_dedup]
    exact mem_heatRows df c
  · exact ((List.perm_insertionSort _ _).nodup_iff).2 (List.nodup_dedup _)
  · exact List.sorted_insertionSort _ _
  · intro m
    rw [List.mem_insertionSort, List.mem_dedup]
    exact mem_heatCols df m
  · intro c m
    show ((monthly_avg df).find? (fun e => decide (e.1 = (c, m)))).map (fun e => e.2) = _
    unfold monthly_avg
    rw [find?_map_key]
    by_cases hmem : (c, m) ∈ weatherGroupKeys df
    · rw [if_pos hmem, if_neg ((mem_weatherGroupKeys df c m).1 hmem)]
      rfl
    · have hempty : groupTemps df (c, m) = [] := by
        by_contra hne
        exact hmem ((mem_weatherGroupKeys df c m).2 hne)
      rw [if_neg hmem, if_pos hempty]
      rfl

/-- A column fold-min is bounded by its seed. -/
lemma foldl_min_le : ∀ (xs : List Rat) (x : Rat), xs.foldl min x ≤ x
  | [], x => le_refl x
  | a :: l, x => le_trans (foldl_min_le l (min x a)) (min_le_left x a)

/-- A column fold-max dominates its seed. -/
lemma le_foldl_max : ∀ (xs : List Rat) (x : Rat), x ≤ xs.foldl max x
  | [], x => le_refl x
  | a :: l, x => le_trans (le_max_left x a) (le_foldl_max l (max x a))

/-- The autoscaled bounds of the precipitation column are ordered. -/
lemma colMin_le_colMax (df : List WeatherRecord) : colMin df ≤ colMax df := by
  unfold colMin colMax
  cases h : coercedPrecips df with
  | nil => norm_num [listMinD, listMaxD]
  | cons x xs =>
      simp only [listMinD, listMaxD]
      exact le_trans (foldl_min_le xs x) (le_foldl_max xs x)

/-- The seaborn size normalization is monotone non-decreasing. -/
lemma seabornSizeNorm_mono (dmin dmax v1 v2 : Rat) (hd : dmin ≤ dmax) (h12 : v1 ≤ v2) :
    seabornSizeNorm dmin dmax v1 ≤ seabornSizeNorm dmin dmax v2 := by
  unfold seabornSizeNorm
  split_ifs with h
  · exact le_refl _
  · have hpos : 0 < dmax - dmin := sub_pos.2 (lt_of_le_of_ne hd (Ne.symm h))
    have h1 : (v1 - dmin) / (dmax - dmin) ≤ (v2 - dmin) / (dmax - dmin) := by
      rw [div_le_div_iff₀ hpos hpos]
      nlinarith
    nlinarith [h1]

/-- The data maximum is assigned the maximum size. -/
lemma seabornSizeNorm_max (dmin dmax : Rat) (h : dmin < dmax) :
    seabornSizeNorm dmin dmax dmax = 300 := by
  unfold seabornSizeNorm
  rw [if_neg (ne_of_gt h), div_self (sub_ne_zero.2 (ne_of_gt h))]
  norm_num

/-- Every value strictly below the data maximum gets a size strictly
below the maximum: the normalization clamps nothing. -/
lemma seabornSizeNorm_lt_max (dmin dmax v : Rat) (h : dmin < dmax) (hv : v < dmax) :
    seabornSizeNorm dmin dmax v < 300 := by
  unfold seabornSizeNorm
  rw [if_neg (ne_of_gt h)]
  have hpos : 0 < dmax - dmin := sub_pos.2 h
  have h1 : (v - dmin) / (dmax - dmin) < 1 := (div_lt_one hpos).2 (by linarith)
  nlinarith [h1]

/-- A daily record carrying a given numeric precipitation value (the
other columns play no part in the size mapping). -/
def wrecPrecip (p : Rat) : WeatherRecord :=
  { city := "Auckland", month := 1, avg_temp := 59, avg_humidity := 77,
    precip := .numeric p }

/-- A 22-row table whose coerced precipitation column is twenty `0`s
followed by `50` and `100`: its 95th percentile is `47.5` while its
data range is `[0, 100]`. -/
def wdfWide : List WeatherRecord :=
  [wrecPrecip 0, wrecPrecip 0, wrecPrecip 0, wrecPrecip 0, wrecPrecip 0,
   wrecPrecip 0, wrecPrecip 0, wrecPrecip 0, wrecPrecip 0, wrecPrecip 0,
   wrecPrecip 0, wrecPrecip 0, wrecPrecip 0, wrecPrecip 0, wrecPrecip 0,
   wrecPrecip 0, wrecPrecip 0, wrecPrecip 0, wrecPrecip 0, wrecPrecip 0,
   wrecPrecip 50, wrecPrecip 100]

/-- The coerced precipitation column of `wdfWide`. -/
lemma coercedPrecips_wdfWide :
    coercedPrecips wdfWide =
      [0, 0, 0, 0, 0, 0, 0, 0, 0, 0, 0, 0, 0, 0, 0, 0, 0, 0, 0, 0, 50, 100] := by
  norm_num [wdfWide, coercedPrecips, wrecPrecip, fillna0, to_numeric_coerce]

/-- The 95th percentile of `wdfWide` evaluates to `47.5`. -/
lemma maxPrecip_wdfWide : maxPrecip wdfWide = 95 / 2 := by
  rw [maxPrecip, if_neg (by simp [wdfWide, List.cons_ne_nil]), coercedPrecips_wdfWide]
  norm_num [quantile95, List.insertionSort, List.orderedInsert]

/-- The autoscaled bounds of `wdfWide` evaluate to `0` and `100`. -/
lemma colBounds_wdfWide : colMin wdfWide = 0 ∧ colMax wdfWide = 100 := by
  rw [colMin, colMax, coercedPrecips_wdfWide]
  norm_num [listMinD, listMaxD]

/-- **C3 counterexample.**  On the concrete table `wdfWide`, the data
value `50` lies strictly above the 95th-percentile cutoff `47.5`, yet
seaborn assigns it size `160`, not the maximum `300`: the plot's
sizing normalizes over the data range `[0, 100]` and never clamps at
the percentile, which only feeds the legend. -/
theorem scatter_size_not_clamped :
    (50 : Rat) ∈ coercedPrecips wdfWide ∧
    maxPrecip wdfWide < 50 ∧
    scatterPointSize wdfWide 50 ≠ 300 := by
  refine ⟨?_, ?_, ?_⟩
  · rw [coercedPrecips_wdfWide]
    norm_num
  · rw [maxPrecip_wdfWide]
    norm_num
  · rw [scatterPointSize, colBounds_wdfWide.1, colBounds_wdfWide.2]
    norm_num [seabornSizeNorm]

/-- **C3 (amended).** The marker-size mapping `plot_weather_scatter`
applies to the coerced precipitation values is monotone non-decreasing
— in particular for any two values `v1 < v2 ≤ p95` the size of `v1` is
at most the size of `v2` — but values above the 95th percentile are
not clamped: the mapping is seaborn's linear normalization of the data
range `[colMin, colMax]` onto `[20, 300]`, under which (for a
non-constant column) exactly the data maximum receives the maximum
size `300` and every smaller value receives a strictly smaller size;
the p95 cutoff is used only for the legend reference values. -/
theorem scatter_point_size_monotone_max_only (df : List WeatherRecord) :
    (∀ v1 v2 : Rat, v1 < v2 → v2 ≤ maxPrecip df →
      scatterPointSize df v1 ≤ scatterPointSize df v2) ∧
    (colMin df < colMax df →
      scatterPointSize df (colMax df) = 300 ∧
      ∀ v : Rat, v < colMax df → scatterPointSize df v < 300) :=
  ⟨fun v1 v2 h12 _ =>
    seabornSizeNorm_mono (colMin df) (colMax df) v1 v2 (colMin_le_colMax df) h12.le,
   fun h =>
    ⟨seabornSizeNorm_max (colMin df) (colMax df) h,
     fun v hv => seabornSizeNorm_lt_max (colMin df) (colMax df) v h hv⟩⟩

/-- Witness for the amended C3 at the concrete table `wdfWide`
(cutoff `47.5`, data range `[0, 100]`): sizes are ordered at
`1 < 2 ≤ 47.5` and the data maximum `100` receives size `300`. -/
theorem scatter_point_size_monotone_max_only_witness :
    scatterPointSize wdfWide 1 ≤ scatterPointSize wdfWide 2 ∧
    scatterPointSize wdfWide (colMax wdfWide) = 300 :=
  ⟨(scatter_point_size_monotone_max_only wdfWide).1 1 2 (by norm_num)
     (by rw [maxPrecip_wdfWide]; norm_num),
   ((scatter_point_size_monotone_max_only wdfWide).2
     (by rw [colBounds_wdfWide.1, colBounds_wdfWide.2]; norm_num)).1⟩

/-- Every real calendar month has at least one day. -/
lemma one_le_daysInMonth (y : Int) (m : Nat) (h1 : 1 ≤ m) (h2 : m ≤ 12) :
    1 ≤ daysInMonth y m := by
  interval_cases m <;> simp [daysInMonth] <;> split <;> norm_num

/-- **C6.** For every Minnesota record with a real month number, the
date synthesized by `plot_minnesota_precip_line` is exactly the first
calendar day (day 1) of month `mo` in year `year`: it is a valid date
of that month and chronologically no later than any valid date of that
month. -/
theorem minnesota_synth_date_first_day (r : MRecord) (h1 : 1 ≤ r.mo) (h2 : r.mo ≤ 12) :
    ∃ d : Date, minnSynthDate r = some d ∧ isFirstCalendarDay r.year r.mo d := by
  have hd := one_le_daysInMonth r.year r.mo h1 h2
  have hvalid : validDate ⟨r.year, r.mo, 1⟩ = true := by
    simp [validDate, h1, h2, hd]
  refine ⟨⟨r.year, r.mo, 1⟩, ?_, hvalid, rfl, rfl, ?_⟩
  · simp [minnSynthDate, to_datetime, hvalid]
  · intro d' hd' hy hm
    obtain ⟨y', m', dd⟩ := d'
    simp only at hy hm
    subst hy
    subst hm
    simp only [validDate, Bool.and_eq_true, decide_eq_true_eq] at hd'
    simp [dateLe, hd'.1.2]

/-- Witness for C6 at a concrete record: July 1930 yields July 1, 1930. -/
theorem minnesota_synth_date_first_day_witness :
    ∃ d : Date,
      minnSynthDate { site := "Morris", year := 1930, mo := 7, precip := 23/10 } = some d ∧
      isFirstCalendarDay 1930 7 d :=
  minnesota_synth_date_first_day
    { site := "Morris", year := 1930, mo := 7, precip := 23/10 } (by decide) (by decide)

/-- **C10.** No renderer mutates its input frame: the scatter and line
renderers copy before assigning a column, the two heatmap renderers
assign nothing, and running both weather renderers in sequence on the
same frame behaves as if each had its own independent copy. -/
theorem renderers_no_input_mutation :
    (∀ (s : WState) (i : Nat), i < s.length →
      (plot_weather_scatter_state s i)[i]? = s[i]?) ∧
    (∀ (s : WState) (i : Nat), plot_weather_heatmap_state s i = s) ∧
    (∀ (s : WState) (i : Nat), i < s.length →
      (plot_weather_scatter_state (plot_weather_heatmap_state s i) i)[i]? = s[i]? ∧
      scatterPrecipsOf (plot_weather_heatmap_state s i) i = scatterPrecipsOf s i) ∧
    (∀ (t : MState) (k : Nat), k < t.length →
      (plot_minnesota_precip_line_state t k)[k]? = t[k]?) ∧
    (∀ (g : GState) (n : Nat), plot_global_temp_heatmap_state g n = g) := by
  have hscatter : ∀ (s : WState) (i : Nat), i < s.length →
      (plot_weather_scatter_state s i)[i]? = s[i]? := by
    intro s i hi
    unfold plot_weather_scatter_state copyFrame setPrecipCol
    simp only
    rw [List.getElem?_set_ne (by omega : s.length ≠ i)]
    exact List.getElem?_append_left hi
  have hminn : ∀ (t : MState) (k : Nat), k < t.length →
      (plot_minnesota_precip_line_state t k)[k]? = t[k]? := by
    intro t k hk
    unfold plot_minnesota_precip_line_state copyFrameM setDateCol
    simp only
    rw [List.getElem?_set_ne (by omega : t.length ≠ k)]
    exact List.getElem?_append_left hk
  exact ⟨hscatter, fun s i => rfl, fun s i hi => ⟨hscatter s i hi, rfl⟩,
    hminn, fun g n => rfl⟩

/-- A one-frame weather heap for the C10 witness. -/
def wstate0 : WState :=
  [[{ city := "Auckland", month := 1, avg_temp := 59, avg_humidity := 77,
      precip := .token "T" }]]

/-- A one-frame Minnesota heap for the C10 witness. -/
def mstate0 : MState :=
  [[{ site := "Morris", year := 1930, mo := 7, precip := 1, date := none }]]

/-- Witness for C10 on concrete one-frame heaps. -/
theorem renderers_no_input_mutation_witness :
    (plot_weather_scatter_state wstate0 0)[0]? = wstate0[0]? ∧
    (plot_minnesota_precip_line_state mstate0 0)[0]? = mstate0[0]? :=
  ⟨renderers_no_input_mutation.1 wstate0 0 (by decide),
   renderers_no_input_mutation.2.2.2.1 mstate0 0 (by decide)⟩

/-- A weather table whose precipitation column is all zeros: its
95th-percentile cutoff is `0`. -/
def wdfZero : List WeatherRecord :=
  [{ city := "Auckland", month := 1, avg_temp := 59, avg_humidity := 77,
     precip := .numeric 0 },
   { city := "Auckland", month := 2, avg_temp := 61, avg_humidity := 80,
     precip := .numeric 0 },
   { city := "Hamilton", month := 1, avg_temp := 57, avg_humidity := 82,
     precip := .numeric 0 }]

/-- The 95th percentile of the all-zero table evaluates to `0`. -/
lemma maxPrecip_wdfZero : maxPrecip wdfZero = 0 := by
  norm_num [maxPrecip, wdfZero, quantile95, coercedPrecips, fillna0, to_numeric_coerce,
    List.insertionSort, List.orderedInsert, List.cons_ne_nil]

/-- On the all-zero table the legend reference list collapses to the
single value `0`. -/
lemma refValues_wdfZero : refValues wdfZero = [0] := by
  have h0 : round2 0 = 0 := by norm_num [round2, roundHalfEven]
  rw [refValues, maxPrecip_wdfZero]
  norm_num [linspace4, h0, List.dedup_cons_of_mem, List.dedup_cons_of_not_mem,
    List.insertionSort, List.orderedInsert]

/-- **C9 counterexample.** On the concrete all-zero table the
precipitation legend has a single reference value, not 4: rounding the
four evenly spaced sample points to two decimals and taking the
distinct values (`np.unique`) collapses them. -/
theorem scatter_ref_values_not_four : (refValues wdfZero).length ≠ 4 := by
  rw [refValues_wdfZero]
  norm_num

/-- **C9 (amended).** The legend reference values are the sorted
distinct two-decimal roundings of the four points evenly spaced between
`0` and the 95th-percentile cutoff (`k * p95 / 3` for `k = 0..3`);
there are at most 4 of them, and exactly 4 whenever the four rounded
values are pairwise distinct. -/
theorem scatter_ref_values_structure (df : List WeatherRecord) :
    (refValues df).length ≤ 4 ∧
    (∀ v, v ∈ refValues df ↔
      ∃ k : Nat, k ≤ 3 ∧ v = round2 ((k : Rat) * maxPrecip df / 3)) ∧
    (((linspace4 (maxPrecip df)).map round2).Nodup → (refValues df).length = 4) := by
  unfold refValues
  refine ⟨?_, ?_, ?_⟩
  · rw [(List.perm_insertionSort _ _).length_eq]
    have h := (List.dedup_sublist ((linspace4 (maxPrecip df)).map round2)).length_le
    simpa [linspace4] using h
  · intro v
    rw [List.mem_insertionSort, List.mem_dedup]
    constructor
    · intro hv
      rcases List.mem_map.1 hv with ⟨x, hx, rfl⟩
      simp only [linspace4, List.mem_cons, List.not_mem_nil, or_false] at hx
      rcases hx with rfl | rfl | rfl | rfl
      · exact ⟨0, by norm_num, congrArg round2 (by push_cast; ring)⟩
      · exact ⟨1, by norm_num, congrArg round2 (by push_cast; ring)⟩
      · exact ⟨2, by norm_num, congrArg round2 (by push_cast; ring)⟩
      · exact ⟨3, by norm_num, congrArg round2 (by push_cast; ring)⟩
    · rintro ⟨k, hk, rfl⟩
      apply List.mem_map.2
      interval_cases k
      · exact ⟨0, by simp [linspace4], congrArg round2 (by push_cast; ring)⟩
      · exact ⟨maxPrecip df / 3, by simp [linspace4],
          congrArg round2 (by push_cast; ring)⟩
      · exact ⟨2 * maxPrecip df / 3, by simp [linspace4],
          congrArg round2 (by push_cast; ring)⟩
      · exact ⟨maxPrecip df, by simp [linspace4],
          congrArg round2 (by push_cast; ring)⟩
  · intro hnd
    rw [(List.perm_insertionSort _ _).length_eq, List.dedup_eq_self.2 hnd]
    simp [linspace4]

/-- A weather table whose coerced precipitation column is `[3, 3]`, so
that its 95th-percentile cutoff is `3` and the four rounded sample
points `0, 1, 2, 3` are distinct. -/
def wdfThree : List WeatherRecord :=
  [{ city := "Auckland", month := 1, avg_temp := 59, avg_humidity := 77,
     precip := .numeric 3 },
   { city := "Auckland", month := 2, avg_temp := 61, avg_humidity := 80,
     precip := .numeric 3 }]

/-- The 95th percentile of `wdfThree` evaluates to `3`. -/
lemma maxPrecip_wdfThree : maxPrecip wdfThree = 3 := by
  norm_num [maxPrecip, wdfThree, quantile95, coercedPrecips, fillna0, to_numeric_coerce,
    List.insertionSort, List.orderedInsert, List.cons_ne_nil]

/-- Witness for the amended C9: on `wdfThree` the rounded sample points
are distinct and the legend has exactly 4 reference values. -/
theorem scatter_ref_values_structure_witness :
    (refValues wdfThree).length = 4 :=
  (scatter_ref_values_structure wdfThree).2.2 (by
    rw [maxPrecip_wdfThree]
    norm_num [linspace4, round2, roundHalfEven, List.nodup_cons])

/-- The `month_order` mapping sends the `j`-th month-column name to the
calendar number `j + 1`. -/
lemma month_order_monthNamesV : ∀ j : Fin 12, month_order (monthNamesV j) = some (j.1 + 1) := by
  decide

/-- Membership in the melted table. -/
lemma mem_meltGlobal (df : List GlobalRow) (x : LongRow) :
    x ∈ meltGlobal df ↔ ∃ j : Fin 12, ∃ r ∈ df, x = meltRow j r := by
  unfold meltGlobal
  rw [List.mem_flatMap]
  constructor
  · rintro ⟨j, _, hx⟩
    rcases List.mem_map.1 hx with ⟨r, hr, rfl⟩
    exact ⟨j, r, hr, rfl⟩
  · rintro ⟨j, r, hr, rfl⟩
    exact ⟨j, List.mem_finRange j, List.mem_map.2 ⟨r, hr, rfl⟩⟩

/-- With duplicate-free years, the `(Year, MonthNum)` keys of the
melted table are duplicate-free, so the pivot succeeds. -/
lemma melt_pairs_nodup (df : List GlobalRow) (h : (df.map (fun r => r.Year)).Nodup) :
    ((meltGlobal df).map (fun e => (e.year, e.monthNum))).Nodup := by
  unfold meltGlobal
  rw [List.map_flatMap, List.nodup_flatMap]
  constructor
  · intro j _
    rw [List.map_map]
    have hcomp : ((fun (e : LongRow) => (e.year, e.monthNum)) ∘ meltRow j) =
        (fun y => (y, month_order (monthNamesV j))) ∘ (fun r => r.Year) := rfl
    rw [hcomp, ← List.map_map]
    exact h.map (fun a b hab => congrArg Prod.fst hab)
  · refine List.Pairwise.imp ?_ (List.nodup_finRange 12)
    intro j j' hne a haj haj'
    rcases List.mem_map.1 haj with ⟨x, hx, rfl⟩
    rcases List.mem_map.1 hx with ⟨r, _, rfl⟩
    rcases List.mem_map.1 haj' with ⟨x', hx', heq⟩
    rcases List.mem_map.1 hx' with ⟨r', _, rfl⟩
    have h2 : month_order (monthNamesV j') = month_order (monthNamesV j) :=
      congrArg Prod.snd heq
    rw [month_order_monthNamesV j, month_order_monthNamesV j'] at h2
    have h3 : j'.1 + 1 = j.1 + 1 := by injection h2
    exact hne (Fin.ext (by omega))

/-- **C2.** For every wide anomaly table with distinct years, the
reshape in `plot_global_temp_heatmap` (melt to long form with month
names mapped to 1–12, then pivot back to a Year × month matrix sorted
by ascending year) succeeds and is the identity on every cell: a
present value comes back unchanged and a missing cell stays missing,
never coerced to `0`. -/
theorem global_anomaly_roundtrip (df : List GlobalRow) (od : String)
    (h : (df.map (fun r => r.Year)).Nodup) :
    ∃ pt : PivotTable Int Nat,
      (plot_global_temp_heatmap df od).1 = some pt ∧
      pt.rows.Sorted (· ≤ ·) ∧
      (∀ y, y ∈ pt.rows ↔ y ∈ df.map (fun r => r.Year)) ∧
      ∀ r ∈ df, ∀ j : Fin 12, pt.cell r.Year (j.1 + 1) = r.cells j := by
  have hnod := melt_pairs_nodup df h
  refine
    ⟨{ rows := List.insertionSort (· ≤ ·) (((meltGlobal df).map (fun e => e.year)).dedup)
       cols := List.insertionSort (· ≤ ·)
         ((((meltGlobal df).map (fun e => e.monthNum)).reduceOption).dedup)
       cell := fun y n =>
         ((meltGlobal df).find? (fun e => decide (e.year = y ∧ e.monthNum = some n))).bind
           (fun e => e.anomaly) },
     ?_, ?_, ?_, ?_⟩
  · simp only [plot_global_temp_heatmap, pivotYearMonth, if_pos hnod]
  · exact List.sorted_insertionSort _ _
  · intro y
    rw [List.mem_insertionSort, List.mem_dedup]
    constructor
    · intro hy
      rcases List.mem_map.1 hy with ⟨e, he, rfl⟩
      rcases (mem_meltGlobal df e).1 he with ⟨j, r, hr, rfl⟩
      exact List.mem_map.2 ⟨r, hr, rfl⟩
    · intro hy
      rcases List.mem_map.1 hy with ⟨r, hr, rfl⟩
      exact List.mem_map.2 ⟨meltRow 0 r, (mem_meltGlobal df _).2 ⟨0, r, hr, rfl⟩, rfl⟩
  · intro r hr j
    have hfind : (meltGlobal df).find?
        (fun e => decide (e.year = r.Year ∧ e.monthNum = some (j.1 + 1))) =
        some (meltRow j r) := by
      apply find?_eq_some_of_unique
      · exact (mem_meltGlobal df _).2 ⟨j, r, hr, rfl⟩
      · simp [meltRow, month_order_monthNamesV j]
      · intro y hy hpy
        rcases (mem_meltGlobal df y).1 hy with ⟨j', r', hr', rfl⟩
        rw [decide_eq_true_eq] at hpy
        obtain ⟨hy1, hy2⟩ := hpy
        have hy2' : month_order (monthNamesV j') = some (j.1 + 1) := hy2
        rw [month_order_monthNamesV j'] at hy2'
        have h3 : j'.1 + 1 = j.1 + 1 := by injection hy2'
        have hj : j' = j := Fin.ext (by omega)
        subst hj
        have hrr : r' = r := List.inj_on_of_nodup_map h hr' hr hy1
        rw [hrr]
    show ((meltGlobal df).find?
        (fun e => decide (e.year = r.Year ∧ e.monthNum = some (j.1 + 1)))).bind
        (fun e => e.anomaly) = r.cells j
    rw [hfind]
    rfl

/-- A concrete preprocessed anomaly row: year 1880, with January
present (`5`) and February missing. -/
def grow1880 : GlobalRow :=
  { Year := 1880
    cells := ![some 5, none, some 7, none, none, none, none, none, none, none, none, none] }

/-- A concrete preprocessed anomaly row: year 1881, all months missing
except February. -/
def grow1881 : GlobalRow :=
  { Year := 1881
    cells := ![none, some 3, none, none, none, none, none, none, none, none, none, none] }

/-- A concrete two-year anomaly table with distinct years. -/
def gdfSample : List GlobalRow := [grow1880, grow1881]

/-- Witness for C2 at the concrete table `gdfSample`: the pivot
succeeds and the round trip returns the January 1880 value unchanged
while the missing February 1880 cell stays missing. -/
theorem global_anomaly_roundtrip_witness :
    ∃ pt : PivotTable Int Nat,
      (plot_global_temp_heatmap gdfSample "out").1 = some pt ∧
      pt.cell 1880 1 = some 5 ∧ pt.cell 1880 2 = none := by
  obtain ⟨pt, hpt, _, _, hcell⟩ :=
    global_anomaly_roundtrip gdfSample "out" (by decide)
  refine ⟨pt, hpt, ?_, ?_⟩
  · exact hcell grow1880 (by simp [gdfSample]) 0
  · exact hcell grow1880 (by simp [gdfSample]) 1
